import Mathlib

/-!
Verification of the DotDesignPop Power BI publisher scripts.

Shallow embedding of the core logic of `src/powerbi_publisher.py` and
`src/publish_powerbi_report.py`: token caching, workspace resolution,
upload-strategy selection, upload-response handling, file validation,
the bounded-retry request wrapper, and the import completion-polling loop.
Network interactions are modelled by passing the sequence of remote
responses as explicit arguments; wall-clock time advances only through
the explicit sleeps of the code (network calls are instantaneous in the
model).
-/

namespace PowerBI

/-- Python's `str.lower()`: lowercase every character (restricted to the
ASCII case mapping of `Char.toLower`, which covers the names appearing in
the scripts). -/
def py_lower (s : String) : String := ⟨s.data.map Char.toLower⟩

/-! ## Upload strategy selection (powerbi_publisher.py, lines 195-217) -/

/-- `file_size_mb = file_size / (1024 * 1024)` from line 196.  Python float
division is modelled by exact rational division; for the comparison against
1024 the two agree (integers below 2^53 are exact in binary64 and division
by the power of two 2^20 is exact scaling). -/
def file_size_mb (file_size : Nat) : ℚ := (file_size : ℚ) / (1024 * 1024)

/-- The two upload paths of `import_pbix`. -/
inductive UploadStrategy where
  | staged
  | direct
deriving Repr, DecidableEq

/-- Line 214: `if file_size_mb > 1024:` take the temporary-upload-location
path, otherwise the direct multipart upload. -/
def import_pbix_strategy (file_size : Nat) : UploadStrategy :=
  if file_size_mb file_size > 1024 then .staged else .direct

/-! ## Direct-upload response handling
(powerbi_publisher.py lines 228-234, publish_powerbi_report.py lines 215-231) -/

/-- The HTTP response to the direct import POST: status code, the `id`
field of the parsed JSON body, the optional `error.message` field of the
body, and the raw body text. -/
structure ImportResponse where
  status_code : Nat
  body_id : String
  error_message : Option String
  text : String
deriving Repr, DecidableEq

/-- `powerbi_publisher.import_pbix` lines 228-234:
`if response.status_code not in [200, 201, 202]: raise Exception(...)`,
else return the parsed body (here: its operation identifier). -/
def import_pbix_handle (resp : ImportResponse) : Except String String :=
  if resp.status_code = 200 ∨ resp.status_code = 201 ∨ resp.status_code = 202 then
    .ok resp.body_id
  else
    .error ("Import failed (" ++ toString resp.status_code ++ "): " ++ resp.text)

/-- `publish_powerbi_report.publish_report` lines 215-230:
`if response.status_code not in [200, 202]:` extract
`response.json().get('error', \x7b\x7d).get('message', response.text)` and raise;
else continue with the parsed body's import id. -/
def publish_report_handle (resp : ImportResponse) : Except String String :=
  if resp.status_code = 200 ∨ resp.status_code = 202 then
    .ok resp.body_id
  else
    .error ("Publish failed: " ++ (resp.error_message.getD resp.text))

/-! ## File validation
(powerbi_publisher.py lines 187-193, publish_powerbi_report.py lines 178-182) -/

/-- The facts about the path argument that the validation code inspects:
whether the file exists and its `pathlib` suffix (extension with dot). -/
structure PbixPath where
  pathExists : Bool
  suffix : String
deriving Repr, DecidableEq

/-- The two validation failures: `FileNotFoundError` and `ValueError`. -/
inductive PbixError where
  | fileNotFound
  | valueError
deriving Repr, DecidableEq

/-- Lines 189-193 of `powerbi_publisher.py` (identically lines 178-182 of
`publish_powerbi_report.py`): raise `FileNotFoundError` when the path does
not exist, then `ValueError` unless `suffix.lower() == ".pbix"`. -/
def validate_pbix (p : PbixPath) : Except PbixError Unit :=
  if !p.pathExists then .error .fileNotFound
  else if ¬ (py_lower p.suffix = ".pbix") then .error .valueError
  else .ok ()

/-- The prefix of `import_pbix` up to the choice of upload path: validation
(lines 187-193) runs before any network request; only a validated call
reaches the size-based strategy choice. -/
def import_pbix_start (p : PbixPath) (file_size : Nat) : Except PbixError UploadStrategy :=
  match validate_pbix p with
  | .error e => .error e
  | .ok _ => .ok (import_pbix_strategy file_size)

/-! ## Workspace resolution
(powerbi_publisher.py lines 110-118, publish_powerbi_report.py lines 150-173) -/

/-- One entry of the `GET /groups` listing: display name and identifier. -/
structure Workspace where
  name : String
  id : String
deriving Repr, DecidableEq

/-- `PowerBIClient.get_workspace_id` lines 110-118: scan the listed
workspaces in order, return the id of the first whose lowercased name
equals the lowercased requested name, else `None`. -/
def get_workspace_id : List Workspace → String → Option String
  | [], _ => none
  | ws :: rest, workspace_name =>
    if py_lower ws.name = py_lower workspace_name then some ws.id
    else get_workspace_id rest workspace_name

/-- `PowerBIPublisher.get_workspace_id` lines 159-173: the same first-match
loop (lines 162-166); on fall-through it logs every available workspace
name as a warning and raises `ValueError` whose message names only the
requested workspace.  The returned pair is (outcome, warning log lines). -/
def get_workspace_id2 (workspaces : List Workspace) (workspace_name : String) :
    Except String String × List String :=
  match get_workspace_id workspaces workspace_name with
  | some i => (.ok i, [])
  | none =>
    (.error ("Workspace \x27" ++ workspace_name ++ "\x27 not found"),
     workspaces.map (fun w => w.name))

/-! ## Token caching (powerbi_publisher.py, `PowerBIAuth.get_token`, lines 46-69) -/

/-- The mutable fields of `PowerBIAuth`: the cached token (`None` before the
first fetch) and its expiry timestamp (seconds, initially `0`).  Timestamps
are modelled as rationals since `time.time()` is fractional. -/
structure AuthState where
  access_token : Option String
  token_expiry : ℚ
deriving Repr, DecidableEq

/-- The identity provider's response to the client-credentials POST:
HTTP status, the `access_token` field, the optional `expires_in` field
(read via `.get("expires_in", 3600)`), and the raw body text. -/
structure TokenResponse where
  status_code : Nat
  access_token : String
  expires_in : Option ℚ
  text : String
deriving Repr, DecidableEq

/-- Python truthiness of the `Optional[str]` field `self.access_token`:
`None` and the empty string are falsy, any other string is truthy. -/
def tokenTruthy : Option String → Bool
  | none => false
  | some s => !(s == "")

deriving instance DecidableEq for Except

/-- The observable outcome of one `get_token` call: the returned token (or
the raised authentication error), the object state after the call, and the
number of network requests performed. -/
structure GetTokenResult where
  result : Except String String
  state : AuthState
  network_calls : Nat
deriving Repr, DecidableEq

/-- `PowerBIAuth.get_token` lines 46-69.  `now` is the value of
`time.time()` during the call and `fetch` the identity provider's response
to the token exchange, consulted only when the exchange is performed:
line 48 `if self.access_token and time.time() < self.token_expiry - 60:`
returns the cached token with no network call; otherwise one POST is made;
a non-200 status raises; on 200 the token is cached with expiry
`time.time() + token_data.get("expires_in", 3600)`. -/
def get_token (st : AuthState) (now : ℚ) (fetch : TokenResponse) : GetTokenResult :=
  if tokenTruthy st.access_token ∧ now < st.token_expiry - 60 then
    ⟨.ok (st.access_token.getD ""), st, 0⟩
  else if fetch.status_code ≠ 200 then
    ⟨.error ("Authentication failed: " ++ fetch.text), st, 1⟩
  else
    ⟨.ok fetch.access_token,
     ⟨some fetch.access_token, now + fetch.expires_in.getD 3600⟩, 1⟩

/-! ## Bounded-retry request wrapper
(publish_powerbi_report.py, `PowerBIPublisher._make_request`, lines 124-148) -/

/-- The HTTP response as the retry wrapper sees it: status code and the
optional `Retry-After` header (already parsed to a number). -/
structure HttpResponse where
  status_code : Nat
  retryAfter : Option Nat
deriving Repr, DecidableEq

/-- What one call to `requests.request` produces: either a well-formed
response or a raised `requests.exceptions.RequestException`. -/
inductive ReqAttempt where
  | exn
  | resp (r : HttpResponse)
deriving Repr, DecidableEq

/-- How `_make_request` finishes: a returned response, a re-raised network
exception, or the final `Exception("Max retries exceeded")`. -/
inductive ReqResult where
  | returned (r : HttpResponse)
  | raisedNetwork
  | maxRetriesExceeded
deriving Repr, DecidableEq

/-- Observable trace of one `_make_request` call: the outcome, the number
of `requests.request` calls performed, and the `time.sleep` durations in
order. -/
structure ReqTrace where
  result : ReqResult
  attempts : Nat
  sleeps : List Nat
deriving Repr, DecidableEq

/-- Line 127: `max_retries = 3`. -/
def max_retries : Nat := 3

/-- Line 128: `retry_delay = 2`. -/
def retry_delay : Nat := 2

/-- The body of the `for attempt in range(max_retries)` loop, lines
130-146, iterating over the remaining attempt indices.  `env attempt` is
what the HTTP library produced on that attempt and `sleeps` the reversed
log of sleeps so far.  On 429 sleep
`int(response.headers.get("Retry-After", retry_delay * (attempt + 1)))`
and `continue`; any other response is returned; on a network exception
re-raise when `attempt == max_retries - 1`, else sleep
`retry_delay * (attempt + 1)` and retry; a fall-through of the loop raises
`Exception("Max retries exceeded")` (line 148).  The `attempts` field
counts the `requests.request` calls performed. -/
def make_request_go (env : Nat → ReqAttempt) : List Nat → List Nat → ReqTrace
  | [], sleeps => ⟨.maxRetriesExceeded, max_retries, sleeps.reverse⟩
  | attempt :: rest, sleeps =>
    match env attempt with
    | .resp r =>
      if r.status_code = 429 then
        make_request_go env rest
          (r.retryAfter.getD (retry_delay * (attempt + 1)) :: sleeps)
      else ⟨.returned r, attempt + 1, sleeps.reverse⟩
    | .exn =>
      if attempt = max_retries - 1 then ⟨.raisedNetwork, attempt + 1, sleeps.reverse⟩
      else make_request_go env rest (retry_delay * (attempt + 1) :: sleeps)

/-- `PowerBIPublisher._make_request`, lines 124-148. -/
def make_request (env : Nat → ReqAttempt) : ReqTrace :=
  make_request_go env (List.range max_retries) []

/-! ## Import completion polling
(powerbi_publisher.py `wait_for_import` lines 308-331,
publish_powerbi_report.py `_wait_for_import` lines 258-281) -/

/-- A snapshot of the import-status endpoint's JSON: the optional
`importState` field, the optional `error.message` field, and the resulting
report and dataset identifiers. -/
structure ImportStatus where
  importState : Option String
  error_message : Option String
  reports : List String
  datasets : List String
deriving Repr, DecidableEq

/-- Line 320: `import_state = status.get("importState", "Unknown")`. -/
def stateOf (s : ImportStatus) : String := s.importState.getD "Unknown"

/-- A state is non-terminal when it is neither `Succeeded` nor `Failed`. -/
def nonterminal (s : ImportStatus) : Prop :=
  stateOf s ≠ "Succeeded" ∧ stateOf s ≠ "Failed"

/-- How the polling loop finishes: `Succeeded` returns the full status
record; `Failed` raises carrying the status record (from which each script
formats its error message); expiry of the window raises `TimeoutError`. -/
inductive WaitOutcome where
  | succeeded (status : ImportStatus)
  | importFailed (status : ImportStatus)
  | importTimeout
deriving Repr, DecidableEq

/-- The `while time.time() - start_time < timeout` loop of
`wait_for_import` (lines 318-329).  `get i` is the status returned by the
`i`-th call to `get_import_status` (each poll re-fetches a fresh snapshot);
`i * poll_interval` is the elapsed wall-clock time when poll `i` happens,
since only the `time.sleep(poll_interval)` at line 329 advances time.
`fuel` bounds the remaining iterations; with `fuel > timeout` it is never
exhausted (each iteration needs `i * poll_interval < timeout`).  The second
component of the result is the total elapsed time on exit. -/
def wait_go (get : Nat → ImportStatus) (timeout poll_interval : Nat) :
    Nat → Nat → WaitOutcome × Nat
  | 0, i => (.importTimeout, i * poll_interval)
  | fuel + 1, i =>
    if i * poll_interval < timeout then
      if stateOf (get i) = "Succeeded" then (.succeeded (get i), i * poll_interval)
      else if stateOf (get i) = "Failed" then (.importFailed (get i), i * poll_interval)
      else wait_go get timeout poll_interval fuel (i + 1)
    else (.importTimeout, i * poll_interval)

/-- `PowerBIClient.wait_for_import` lines 308-331 (defaults
`timeout=300`, `poll_interval=5`). -/
def wait_for_import (get : Nat → ImportStatus) (timeout poll_interval : Nat) :
    WaitOutcome × Nat :=
  wait_go get timeout poll_interval (timeout + 1) 0

/-- The loop of `PowerBIPublisher._wait_for_import` lines 263-279:
identical shape, `check_interval = 5` fixed, and the state is read as
`status.get('importState')` (no default) and compared to the literals, so
a missing state compares unequal to both. -/
def wait_go2 (get : Nat → ImportStatus) (timeout : Nat) : Nat → Nat → WaitOutcome × Nat
  | 0, i => (.importTimeout, i * 5)
  | fuel + 1, i =>
    if i * 5 < timeout then
      if (get i).importState = some "Succeeded" then (.succeeded (get i), i * 5)
      else if (get i).importState = some "Failed" then (.importFailed (get i), i * 5)
      else wait_go2 get timeout fuel (i + 1)
    else (.importTimeout, i * 5)

/-- `PowerBIPublisher._wait_for_import` lines 258-281 (default
`timeout=600`). -/
def wait_for_import2 (get : Nat → ImportStatus) (timeout : Nat) : WaitOutcome × Nat :=
  wait_go2 get timeout (timeout + 1) 0

/-! ## Helper lemmas -/

/-- The float comparison of line 214 is equivalent to comparing the byte
count against `2^30`. -/
theorem file_size_mb_gt_iff (n : Nat) :
    file_size_mb n > 1024 ↔ 1024 * 1024 * 1024 < n := by
  rw [file_size_mb, gt_iff_lt, lt_div_iff₀ (by norm_num : (0:ℚ) < 1024 * 1024),
    show (1024 : ℚ) * (1024 * 1024) = ((1024 * 1024 * 1024 : Nat) : ℚ) by norm_num,
    Nat.cast_lt]

/-- A scan that matches nothing returns `None`. -/
theorem get_workspace_id_eq_none (workspace_name : String) :
    ∀ l : List Workspace, (∀ w ∈ l, py_lower w.name ≠ py_lower workspace_name) →
      get_workspace_id l workspace_name = none := by
  intro l
  induction l with
  | nil => intro _; rfl
  | cons w rest ih =>
    intro hl
    simp only [get_workspace_id, if_neg (hl w (by simp))]
    exact ih (fun x hx => hl x (by simp [hx]))

/-- A status whose `importState` field defaults to something other than
`Succeeded`/`Failed` is non-terminal, whatever its other fields. -/
theorem nonterminal_mk (st msg : Option String) (reports datasets : List String)
    (h1 : st.getD "Unknown" ≠ "Succeeded") (h2 : st.getD "Unknown" ≠ "Failed") :
    nonterminal ⟨st, msg, reports, datasets⟩ :=
  ⟨h1, h2⟩

/-- The polling loop never runs longer than `timeout + poll_interval`. -/
theorem wait_go_elapsed_le (get : Nat → ImportStatus) (timeout poll_interval : Nat) :
    ∀ fuel i, i * poll_interval ≤ timeout + poll_interval →
      (wait_go get timeout poll_interval fuel i).2 ≤ timeout + poll_interval := by
  intro fuel
  induction fuel with
  | zero =>
    intro i hi
    simpa [wait_go] using hi
  | succ n ih =>
    intro i hi
    by_cases h : i * poll_interval < timeout
    · by_cases h1 : stateOf (get i) = "Succeeded"
      · simp only [wait_go, if_pos h, if_pos h1]
        exact le_trans (Nat.le_of_lt h) (Nat.le_add_right _ _)
      · by_cases h2 : stateOf (get i) = "Failed"
        · simp only [wait_go, if_pos h, if_neg h1, if_pos h2]
          exact le_trans (Nat.le_of_lt h) (Nat.le_add_right _ _)
        · simp only [wait_go, if_pos h, if_neg h1, if_neg h2]
          refine ih (i + 1) ?_
          have hm : (i + 1) * poll_interval = i * poll_interval + poll_interval :=
            Nat.succ_mul i poll_interval
          rw [hm]
          exact Nat.add_le_add_right (Nat.le_of_lt h) poll_interval
    · simpa [wait_go, h] using hi

/-- If every poll inside the window is non-terminal, the loop times out. -/
theorem wait_go_timeout_of_nonterminal (get : Nat → ImportStatus) (timeout poll_interval : Nat)
    (hall : ∀ k, k * poll_interval < timeout → nonterminal (get k)) :
    ∀ fuel i, (wait_go get timeout poll_interval fuel i).1 = .importTimeout := by
  intro fuel
  induction fuel with
  | zero => intro i; rfl
  | succ n ih =>
    intro i
    by_cases h : i * poll_interval < timeout
    · obtain ⟨h1, h2⟩ := hall i h
      simp [wait_go, h, h1, h2, ih]
    · simp [wait_go, h]

/-- Reaching the first `Succeeded` poll inside the window returns that
status immediately, with no further sleep. -/
theorem wait_go_succeeded (get : Nat → ImportStatus) (timeout poll_interval : Nat) :
    ∀ fuel i j, i ≤ j → j - i < fuel → j * poll_interval < timeout →
      (∀ k, i ≤ k → k < j → nonterminal (get k)) →
      stateOf (get j) = "Succeeded" →
      wait_go get timeout poll_interval fuel i = (.succeeded (get j), j * poll_interval) := by
  intro fuel
  induction fuel with
  | zero =>
    intro i j _ hfuel _ _ _
    omega
  | succ n ih =>
    intro i j hij hfuel hjt hmid hstate
    rcases Nat.lt_or_ge i j with hlt | hge
    · have hnt := hmid i (le_refl i) hlt
      have hit : i * poll_interval < timeout :=
        lt_of_le_of_lt (Nat.mul_le_mul_right poll_interval (Nat.le_of_lt hlt)) hjt
      simp only [wait_go, if_pos hit, if_neg hnt.1, if_neg hnt.2]
      exact ih (i + 1) j hlt (by omega) hjt (fun k hk1 hk2 => hmid k (by omega) hk2) hstate
    · have heq : i = j := Nat.le_antisymm hij hge
      subst heq
      simp [wait_go, hjt, hstate]

/-- Reaching the first `Failed` poll inside the window raises immediately,
with no further sleep. -/
theorem wait_go_failed (get : Nat → ImportStatus) (timeout poll_interval : Nat) :
    ∀ fuel i j, i ≤ j → j - i < fuel → j * poll_interval < timeout →
      (∀ k, i ≤ k → k < j → nonterminal (get k)) →
      stateOf (get j) = "Failed" →
      wait_go get timeout poll_interval fuel i = (.importFailed (get j), j * poll_interval) := by
  intro fuel
  induction fuel with
  | zero =>
    intro i j _ hfuel _ _ _
    omega
  | succ n ih =>
    intro i j hij hfuel hjt hmid hstate
    rcases Nat.lt_or_ge i j with hlt | hge
    · have hnt := hmid i (le_refl i) hlt
      have hit : i * poll_interval < timeout :=
        lt_of_le_of_lt (Nat.mul_le_mul_right poll_interval (Nat.le_of_lt hlt)) hjt
      simp only [wait_go, if_pos hit, if_neg hnt.1, if_neg hnt.2]
      exact ih (i + 1) j hlt (by omega) hjt (fun k hk1 hk2 => hmid k (by omega) hk2) hstate
    · have heq : i = j := Nat.le_antisymm hij hge
      subst heq
      simp [wait_go, hjt, hstate]

/-- The loop of `_wait_for_import` (interval fixed to 5) computes the same
function as the loop of `wait_for_import`: reading the state with
`.get('importState')` and comparing options agrees with reading it with
`.get("importState", "Unknown")` and comparing strings. -/
theorem wait_go2_eq (get : Nat → ImportStatus) (timeout : Nat) :
    ∀ fuel i, wait_go2 get timeout fuel i = wait_go get timeout 5 fuel i := by
  intro fuel
  induction fuel with
  | zero => intro i; rfl
  | succ n ih =>
    intro i
    cases h : (get i).importState with
    | none => simp [wait_go, wait_go2, stateOf, h, ih]
    | some s => simp [wait_go, wait_go2, stateOf, h, ih]

/-! ## Claim theorems -/

/-- C1: completion polling returns the full status record as soon as a
poll reports `Succeeded` and raises as soon as one reports `Failed`, in
both cases with elapsed time `j * poll_interval` (no wait after the
terminal poll); any run whose polls inside the window are all non-terminal
raises `ImportTimeout`; the total elapsed time never exceeds
`timeout + poll_interval`; missing/`Importing`/`Publishing`/`Unknown`
states are non-terminal; and `_wait_for_import` (fixed 5-second interval)
computes the same function as `wait_for_import` at interval 5. -/
theorem C1_completion_polling (get : Nat → ImportStatus) (timeout poll_interval : Nat)
    (hpoll : 1 ≤ poll_interval) :
    (∀ j, j * poll_interval < timeout → (∀ k, k < j → nonterminal (get k)) →
      (stateOf (get j) = "Succeeded" →
        wait_for_import get timeout poll_interval = (.succeeded (get j), j * poll_interval)) ∧
      (stateOf (get j) = "Failed" →
        wait_for_import get timeout poll_interval =
          (.importFailed (get j), j * poll_interval))) ∧
    ((∀ k, k * poll_interval < timeout → nonterminal (get k)) →
      (wait_for_import get timeout poll_interval).1 = .importTimeout) ∧
    (wait_for_import get timeout poll_interval).2 ≤ timeout + poll_interval ∧
    (∀ msg reports datasets,
      nonterminal ⟨none, msg, reports, datasets⟩ ∧
      nonterminal ⟨some "Importing", msg, reports, datasets⟩ ∧
      nonterminal ⟨some "Publishing", msg, reports, datasets⟩ ∧
      nonterminal ⟨some "Unknown", msg, reports, datasets⟩) ∧
    wait_for_import2 get timeout = wait_for_import get timeout 5 := by
  refine ⟨?_, ?_, ?_, ?_, ?_⟩
  · intro j hj hmid
    have h1 : j ≤ j * poll_interval := by
      calc j = j * 1 := (Nat.mul_one j).symm
      _ ≤ j * poll_interval := Nat.mul_le_mul_left j hpoll
    have h2 : j < timeout := lt_of_le_of_lt h1 hj
    have hjf : j - 0 < timeout + 1 := by omega
    exact ⟨wait_go_succeeded get timeout poll_interval (timeout + 1) 0 j
             (Nat.zero_le j) hjf hj (fun k _ hk => hmid k hk),
           wait_go_failed get timeout poll_interval (timeout + 1) 0 j
             (Nat.zero_le j) hjf hj (fun k _ hk => hmid k hk)⟩
  · intro hall
    exact wait_go_timeout_of_nonterminal get timeout poll_interval hall (timeout + 1) 0
  · exact wait_go_elapsed_le get timeout poll_interval (timeout + 1) 0 (by simp)
  · intro msg reports datasets
    exact ⟨nonterminal_mk none msg reports datasets (by decide) (by decide),
           nonterminal_mk (some "Importing") msg reports datasets (by decide) (by decide),
           nonterminal_mk (some "Publishing") msg reports datasets (by decide) (by decide),
           nonterminal_mk (some "Unknown") msg reports datasets (by decide) (by decide)⟩
  · exact wait_go2_eq get timeout (timeout + 1) 0

/-- C1 witness: a run that only ever reports `Publishing` times out with
default parameters, within the `timeout + poll_interval` bound. -/
theorem C1_completion_polling_witness :
    (wait_for_import (fun _ => ⟨some "Publishing", none, [], []⟩) 300 5).1 = .importTimeout ∧
    (wait_for_import (fun _ => ⟨some "Publishing", none, [], []⟩) 300 5).2 ≤ 300 + 5 := by
  have h := C1_completion_polling (fun _ => ⟨some "Publishing", none, [], []⟩) 300 5 (by decide)
  exact ⟨h.2.1 (fun k _ =>
           nonterminal_mk (some "Publishing") none [] [] (by decide) (by decide)),
         h.2.2.1⟩

/-- C2 counterexample: three consecutive 429 responses do NOT lead to a
4th attempt.  The loop `for attempt in range(3)` makes exactly three
requests and then raises `Exception("Max retries exceeded")` (sleeping
2, 4, 6 seconds after the attempts, absent a `Retry-After` header). -/
theorem C2_counterexample :
    make_request (fun _ => .resp ⟨429, none⟩) = ⟨.maxRetriesExceeded, 3, [2, 4, 6]⟩ := by
  rfl

/-- C2 amended: on a 429 response the request is retried, sleeping the
`Retry-After` value when present and otherwise `retry_delay * attempt_number`
(linear backoff, `retry_delay = 2`), up to a bound of 3 total attempts;
three consecutive 429 responses exhaust the bound and surface the terminal
"Max retries exceeded" error without a 4th attempt, and a 429 followed by
a non-429 response yields exactly 2 attempts with the second response
returned. -/
theorem C2_retry_bound (env : Nat → ReqAttempt) (ra0 ra1 ra2 : Option Nat) :
    (env 0 = .resp ⟨429, ra0⟩ → env 1 = .resp ⟨429, ra1⟩ → env 2 = .resp ⟨429, ra2⟩ →
      make_request env =
        ⟨.maxRetriesExceeded, 3, [ra0.getD 2, ra1.getD 4, ra2.getD 6]⟩) ∧
    (∀ r : HttpResponse, r.status_code ≠ 429 →
      env 0 = .resp ⟨429, ra0⟩ → env 1 = .resp r →
      make_request env = ⟨.returned r, 2, [ra0.getD 2]⟩) := by
  have hrange : List.range max_retries = [0, 1, 2] := rfl
  constructor
  · intro h0 h1 h2
    simp [make_request, hrange, make_request_go, h0, h1, h2, retry_delay, max_retries]
  · intro r hr h0 h1
    simp [make_request, hrange, make_request_go, h0, h1, hr, retry_delay, max_retries]

/-- C2 witness: a 429 with `Retry-After: 7` followed by a 500 produces a
second attempt that is returned. -/
theorem C2_retry_bound_witness :
    make_request (fun i => if i = 0 then .resp ⟨429, some 7⟩ else .resp ⟨500, none⟩) =
      ⟨.returned ⟨500, none⟩, 2, [(some (7 : Nat)).getD 2]⟩ := by
  exact (C2_retry_bound (fun i => if i = 0 then .resp ⟨429, some 7⟩ else .resp ⟨500, none⟩)
    (some 7) none none).2 ⟨500, none⟩ (by decide) rfl rfl

/-- C3: a well-formed non-429 response is returned from the first attempt
after exactly one HTTP request and no sleep; only 429 responses and raw
network exceptions trigger the bounded retry (an exception on the first
attempt is retried after the linear backoff, and three consecutive
exceptions re-raise after the 3rd attempt). -/
theorem C3_non429_not_retried (env : Nat → ReqAttempt) (r : HttpResponse) :
    (env 0 = .resp r → r.status_code ≠ 429 →
      make_request env = ⟨.returned r, 1, []⟩) ∧
    (env 0 = .exn → env 1 = .resp r → r.status_code ≠ 429 →
      make_request env = ⟨.returned r, 2, [2]⟩) ∧
    ((∀ a, a < max_retries → env a = .exn) →
      make_request env = ⟨.raisedNetwork, 3, [2, 4]⟩) := by
  have hrange : List.range max_retries = [0, 1, 2] := rfl
  refine ⟨?_, ?_, ?_⟩
  · intro h0 hr
    simp [make_request, hrange, make_request_go, h0, hr]
  · intro h0 h1 hr
    simp [make_request, hrange, make_request_go, h0, h1, hr, retry_delay, max_retries]
  · intro hall
    have h0 := hall 0 (by decide)
    have h1 := hall 1 (by decide)
    have h2 := hall 2 (by decide)
    simp [make_request, hrange, make_request_go, h0, h1, h2, retry_delay, max_retries]

/-- C3 witness: a 403 response is returned immediately after a single
attempt with no retry and no sleep. -/
theorem C3_non429_not_retried_witness :
    make_request (fun _ => .resp ⟨403, none⟩) = ⟨.returned ⟨403, none⟩, 1, []⟩ := by
  exact (C3_non429_not_retried (fun _ => .resp ⟨403, none⟩) ⟨403, none⟩).1 rfl (by decide)

/-- C4: upload strategy selection is a pure function of the file size with
a fixed 1 GiB threshold: sizes strictly above `1024 * 1024 * 1024` bytes
take the staged (temporary-upload-location) path, sizes at most that
(including exactly 1 GiB) take the direct multipart path. -/
theorem C4_upload_threshold :
    (∀ n : Nat,
      (import_pbix_strategy n = .staged ↔ 1024 * 1024 * 1024 < n) ∧
      (import_pbix_strategy n = .direct ↔ n ≤ 1024 * 1024 * 1024)) ∧
    import_pbix_strategy (1024 * 1024 * 1024) = .direct ∧
    import_pbix_strategy (1024 * 1024 * 1024 + 1) = .staged := by
  have main : ∀ n : Nat,
      (import_pbix_strategy n = .staged ↔ 1024 * 1024 * 1024 < n) ∧
      (import_pbix_strategy n = .direct ↔ n ≤ 1024 * 1024 * 1024) := by
    intro n
    by_cases h : 1024 * 1024 * 1024 < n
    · have hc : file_size_mb n > 1024 := (file_size_mb_gt_iff n).mpr h
      simp only [import_pbix_strategy, if_pos hc]
      constructor
      · simp [h]
      · constructor
        · intro hcon; cases hcon
        · intro hle; omega
    · have hc : ¬ file_size_mb n > 1024 := fun hcon => h ((file_size_mb_gt_iff n).mp hcon)
      simp only [import_pbix_strategy, if_neg hc]
      constructor
      · constructor
        · intro hcon; cases hcon
        · intro hlt; omega
      · simp [Nat.le_of_not_lt h]
  exact ⟨main, (main _).2.mpr (by norm_num), (main _).1.mpr (by norm_num)⟩

/-- C5 counterexample: on HTTP 201 the two direct-upload handlers disagree.
`publish_powerbi_report.publish_report` accepts only 200 and 202 and turns
a 201 response into a terminal error, so it is not the case that every
direct-path upload treats 201 as success. -/
theorem C5_counterexample :
    publish_report_handle ⟨201, "imp-1", none, "created"⟩ =
      .error "Publish failed: created" ∧
    import_pbix_handle ⟨201, "imp-1", none, "created"⟩ = .ok "imp-1" := by
  constructor <;> rfl

/-- C5 amended: `powerbi_publisher.import_pbix` treats exactly 200/201/202
as success (any other status raises carrying the status code and body
text), while `publish_powerbi_report.publish_report` treats exactly 200
and 202 as success — 201 is a terminal error there — and raises carrying
the body's `error.message` field when present, else the raw body text. -/
theorem C5_success_statuses (resp : ImportResponse) :
    (import_pbix_handle resp = .ok resp.body_id ↔
      resp.status_code = 200 ∨ resp.status_code = 201 ∨ resp.status_code = 202) ∧
    (¬(resp.status_code = 200 ∨ resp.status_code = 201 ∨ resp.status_code = 202) →
      import_pbix_handle resp =
        .error ("Import failed (" ++ toString resp.status_code ++ "): " ++ resp.text)) ∧
    (publish_report_handle resp = .ok resp.body_id ↔
      resp.status_code = 200 ∨ resp.status_code = 202) ∧
    (¬(resp.status_code = 200 ∨ resp.status_code = 202) →
      publish_report_handle resp =
        .error ("Publish failed: " ++ (resp.error_message.getD resp.text))) := by
  refine ⟨?_, ?_, ?_, ?_⟩
  · by_cases h : resp.status_code = 200 ∨ resp.status_code = 201 ∨ resp.status_code = 202 <;>
      simp [import_pbix_handle, h]
  · intro h; simp [import_pbix_handle, h]
  · by_cases h : resp.status_code = 200 ∨ resp.status_code = 202 <;>
      simp [publish_report_handle, h]
  · intro h; simp [publish_report_handle, h]

/-- C5 witness: a 404 response is rejected by both handlers with the
corresponding error payloads. -/
theorem C5_success_statuses_witness :
    import_pbix_handle ⟨404, "x", none, "nf"⟩ =
      .error ("Import failed (" ++ toString (404 : Nat) ++ "): " ++ "nf") ∧
    publish_report_handle ⟨404, "x", none, "nf"⟩ =
      .error ("Publish failed: " ++ "nf") := by
  exact ⟨(C5_success_statuses ⟨404, "x", none, "nf"⟩).2.1 (by decide),
         (C5_success_statuses ⟨404, "x", none, "nf"⟩).2.2.2 (by decide)⟩

/-- C8: workspace resolution compares lowercased display names for exact
equality and returns the identifier of the first match in list order; in
particular a requested name differing from the head workspace only in
letter case resolves to that workspace's identifier. -/
theorem C8_workspace_matching (workspaces : List Workspace) (workspace_name : String) :
    get_workspace_id workspaces workspace_name =
      (workspaces.find? (fun w => py_lower w.name == py_lower workspace_name)).map
        Workspace.id ∧
    ∀ (w : Workspace) (rest : List Workspace),
      py_lower w.name = py_lower workspace_name →
      get_workspace_id (w :: rest) workspace_name = some w.id := by
  constructor
  · induction workspaces with
    | nil => simp [get_workspace_id]
    | cons w rest ih =>
      by_cases h : py_lower w.name = py_lower workspace_name
      · rw [List.find?_cons_of_pos _ (by simp [h])]
        simp [get_workspace_id, h]
      · rw [List.find?_cons_of_neg _ (by simp [h])]
        simp only [get_workspace_id, if_neg h]
        exact ih
  · intro w rest h
    simp [get_workspace_id, h]

/-- C8 witness: the lowercase request "sales" resolves to the workspace
listed as "Sales". -/
theorem C8_workspace_matching_witness :
    get_workspace_id [⟨"Sales", "ws-1"⟩, ⟨"Ops", "ws-2"⟩] "sales" = some "ws-1" := by
  exact (C8_workspace_matching [⟨"Sales", "ws-1"⟩, ⟨"Ops", "ws-2"⟩] "sales").2
    ⟨"Sales", "ws-1"⟩ [⟨"Ops", "ws-2"⟩] (by decide)

/-- C9 counterexample: with no case-insensitive match,
`PowerBIClient.get_workspace_id` returns the normal value `None` rather
than failing, and `PowerBIPublisher.get_workspace_id` raises a
`ValueError` whose payload names only the requested workspace — the
available names appear in the warning log, not in the error payload. -/
theorem C9_counterexample :
    get_workspace_id [⟨"Alpha", "id-1"⟩] "Beta" = none ∧
    get_workspace_id2 [⟨"Alpha", "id-1"⟩] "Beta" =
      (.error "Workspace \x27Beta\x27 not found", ["Alpha"]) := by
  constructor <;> rfl

/-- C9 amended: when no case-insensitive match exists,
`PowerBIClient.get_workspace_id` returns `None` (its CLI caller then
prints the available names and exits), and
`PowerBIPublisher.get_workspace_id` raises `ValueError` whose message
names only the requested workspace, after logging every available
workspace name as a warning. -/
theorem C9_not_found (workspaces : List Workspace) (workspace_name : String)
    (h : ∀ w ∈ workspaces, py_lower w.name ≠ py_lower workspace_name) :
    get_workspace_id workspaces workspace_name = none ∧
    get_workspace_id2 workspaces workspace_name =
      (.error ("Workspace \x27" ++ workspace_name ++ "\x27 not found"),
       workspaces.map (fun w => w.name)) := by
  have hnone := get_workspace_id_eq_none workspace_name workspaces h
  exact ⟨hnone, by simp [get_workspace_id2, hnone]⟩

/-- C9 witness: a request for "Delta" against workspaces "Alpha"/"Gamma"
yields `None` in one script and a ValueError naming only "Delta" in the
other. -/
theorem C9_not_found_witness :
    get_workspace_id [⟨"Alpha", "id-1"⟩, ⟨"Gamma", "id-3"⟩] "Delta" = none ∧
    get_workspace_id2 [⟨"Alpha", "id-1"⟩, ⟨"Gamma", "id-3"⟩] "Delta" =
      (.error ("Workspace \x27" ++ "Delta" ++ "\x27 not found"),
       ["Alpha", "Gamma"]) := by
  exact C9_not_found [⟨"Alpha", "id-1"⟩, ⟨"Gamma", "id-3"⟩] "Delta" (by decide)

/-- C10: the publish operation validates its file argument before any
network step: a non-existent path raises `FileNotFoundError`, an existing
path whose extension does not lowercase to ".pbix" raises `ValueError`,
and a path passing both checks raises neither and proceeds to the upload
strategy choice. -/
theorem C10_validation (p : PbixPath) (file_size : Nat) :
    (p.pathExists = false →
      validate_pbix p = .error .fileNotFound ∧
      import_pbix_start p file_size = .error .fileNotFound) ∧
    (p.pathExists = true → py_lower p.suffix ≠ ".pbix" →
      validate_pbix p = .error .valueError ∧
      import_pbix_start p file_size = .error .valueError) ∧
    (p.pathExists = true → py_lower p.suffix = ".pbix" →
      validate_pbix p = .ok () ∧
      import_pbix_start p file_size = .ok (import_pbix_strategy file_size)) := by
  refine ⟨?_, ?_, ?_⟩
  · intro h
    simp [validate_pbix, import_pbix_start, h]
  · intro h hs
    simp [validate_pbix, import_pbix_start, h, hs]
  · intro h hs
    simp [validate_pbix, import_pbix_start, h, hs]

/-- C10 witness: a missing file, a mis-suffixed file, and a valid file
(with uppercase extension) at the validation stage. -/
theorem C10_validation_witness :
    validate_pbix ⟨false, ".pbix"⟩ = .error .fileNotFound ∧
    validate_pbix ⟨true, ".txt"⟩ = .error .valueError ∧
    validate_pbix ⟨true, ".PBIX"⟩ = .ok () := by
  exact ⟨((C10_validation ⟨false, ".pbix"⟩ 0).1 rfl).1,
         ((C10_validation ⟨true, ".txt"⟩ 0).2.1 rfl (by decide)).1,
         ((C10_validation ⟨true, ".PBIX"⟩ 0).2.2 rfl (by decide)).1⟩

/-- C6: `get_token` memoizes the bearer token.  When a cached token is
present (a non-empty string — the guard at line 48 tests Python truthiness,
under which `None` and `""` both mean "no token") and its expiry lies more
than 60 seconds after `now`, the cached token is returned unchanged with
zero network calls.  Otherwise exactly one token exchange is performed,
and on a 200 response the fresh token is cached with expiry `now` plus the
returned lifetime (default 3600). -/
theorem C6_token_memoization (st : AuthState) (now : ℚ) (fetch : TokenResponse) :
    (∀ s : String, st.access_token = some s → s ≠ "" → 60 < st.token_expiry - now →
      get_token st now fetch = ⟨.ok s, st, 0⟩) ∧
    ((st.access_token = none ∨ st.access_token = some "" ∨ st.token_expiry - now ≤ 60) →
      (get_token st now fetch).network_calls = 1 ∧
      (fetch.status_code = 200 →
        get_token st now fetch =
          ⟨.ok fetch.access_token,
           ⟨some fetch.access_token, now + fetch.expires_in.getD 3600⟩, 1⟩)) := by
  constructor
  · intro s hs hne h60
    have hc : (tokenTruthy st.access_token = true) ∧ now < st.token_expiry - 60 := by
      refine ⟨?_, by linarith⟩
      rw [hs]
      simp [tokenTruthy, hne]
    unfold get_token
    rw [if_pos hc, hs]
    rfl
  · intro hcase
    have hcf : ¬((tokenTruthy st.access_token = true) ∧ now < st.token_expiry - 60) := by
      rcases hcase with h | h | h
      · simp [tokenTruthy, h]
      · simp [tokenTruthy, h]
      · intro hc
        linarith [hc.2]
    constructor
    · by_cases hf : fetch.status_code = 200 <;> simp [get_token, hcf, hf]
    · intro hf
      simp [get_token, hcf, hf]

/-- C6 witness: a valid cached token is served with no network call; an
absent one triggers exactly one exchange whose result is cached. -/
theorem C6_token_memoization_witness :
    get_token ⟨some "tok", 1000⟩ 0 ⟨200, "new", some 3600, ""⟩ =
      ⟨.ok "tok", ⟨some "tok", 1000⟩, 0⟩ ∧
    get_token ⟨none, 0⟩ 0 ⟨200, "new", some 3600, ""⟩ =
      ⟨.ok "new", ⟨some "new", 0 + 3600⟩, 1⟩ := by
  exact ⟨(C6_token_memoization ⟨some "tok", 1000⟩ 0 ⟨200, "new", some 3600, ""⟩).1
           "tok" rfl (by decide) (by norm_num),
         ((C6_token_memoization ⟨none, 0⟩ 0 ⟨200, "new", some 3600, ""⟩).2
           (Or.inl rfl)).2 rfl⟩

/-- C7 counterexample: when the identity provider reports a lifetime of
only 30 seconds, the freshly fetched token is returned with 30 seconds of
remaining validity — less than the 60 seconds the claim promises for every
returned token. -/
theorem C7_counterexample :
    (get_token ⟨none, 0⟩ 0 ⟨200, "tok", some 30, ""⟩).result = .ok "tok" ∧
    (get_token ⟨none, 0⟩ 0 ⟨200, "tok", some 30, ""⟩).state.token_expiry - 0 < 60 := by
  constructor
  · rfl
  · norm_num [get_token, tokenTruthy]

/-- C7 amended: every token returned by `get_token` has at least 60
seconds of remaining validity provided the token exchange reports a
lifetime of at least 60 seconds; the code itself does not re-check the
margin after a fresh fetch (a cache hit guarantees strictly more than 60
seconds; a fresh token's remaining validity equals the reported lifetime,
default 3600). -/
theorem C7_min_validity (st : AuthState) (now : ℚ) (fetch : TokenResponse)
    (hlife : 60 ≤ fetch.expires_in.getD 3600) :
    ∀ s : String, (get_token st now fetch).result = .ok s →
      60 ≤ (get_token st now fetch).state.token_expiry - now := by
  intro s hs
  by_cases hc : (tokenTruthy st.access_token = true) ∧ now < st.token_expiry - 60
  · simp only [get_token, if_pos hc]
    linarith [hc.2]
  · by_cases hf : fetch.status_code = 200
    · simp only [get_token, if_neg hc, hf, ne_eq, not_true_eq_false, if_false]
      linarith
    · exfalso
      simp [get_token, hc, hf] at hs

/-- C7 witness: with the usual 3600-second lifetime, a token fetched into
an empty cache is returned with at least 60 seconds of validity. -/
theorem C7_min_validity_witness :
    60 ≤ (get_token ⟨none, 0⟩ 0 ⟨200, "tok", some 3600, ""⟩).state.token_expiry - 0 := by
  exact C7_min_validity ⟨none, 0⟩ 0 ⟨200, "tok", some 3600, ""⟩ (by norm_num) "tok" rfl

end PowerBI
